import Mathlib

/-!
Verification of the deterministic assessment engine of openvelo-insight
(`src/app/assessment_engine.py` with the data model of `src/app/domain.py`).

Modelling conventions:
* Python floats (readings, preferences, distances) are modelled as `ℚ`;
  the only genuinely non-rational operation of the engine, the temperature
  penalty `(distance / 10) ** 1.5 * 2`, and the hour/window scores built
  from it, are modelled over `ℝ` with `Real.rpow`.
* `datetime` values are modelled as `ℤ` (seconds); `total_seconds()` of a
  difference is plain integer subtraction.  A snapshot whose `time` field
  is absent or not a datetime is modelled with `time = none`.
* Python dicts (`judgments`, policy tables) are association lists in
  insertion order; keys are unique in every dict the engine builds.
* `_add_risk` mutates a collector list; judges here return the pair of the
  judgment and the flags they append.
* Human-readable reason strings keep the fixed prefix of the source
  f-strings; the interpolated numbers are elided (no claim mentions them).
-/

/-- `Status` enum of `domain.py`. -/
inductive Status where
  | ideal
  | acceptable
  | caution
  | avoid
  | unknown
deriving DecidableEq, Repr

/-- `Trend` enum of `domain.py`. -/
inductive Trend where
  | improving
  | stable
  | worsening
  | unknown
deriving DecidableEq, Repr

/-- `Decision` enum of `domain.py`. -/
inductive Decision where
  | go
  | go_with_caution
  | avoid
  | unknown
deriving DecidableEq, Repr

/-- `RiskSeverity` enum of `domain.py`. -/
inductive RiskSeverity where
  | minor
  | moderate
  | major
  | critical
deriving DecidableEq, Repr

/-- `RiskCode` enum of `domain.py` (the codes the engine emits). -/
inductive RiskCode where
  | extreme_heat
  | extreme_cold
  | high_wind
  | gusty_wind
  | precipitation
  | storm
  | snow_or_ice
  | low_visibility
  | darkness
  | poor_air_quality
  | uv_exposure
  | route_hazard
deriving DecidableEq, Repr

/-- `MeasureDirectionality` enum of `domain.py`. -/
inductive MeasureDirectionality where
  | higher_is_better
  | lower_is_better
  | target_band
  | unknown
deriving DecidableEq, Repr

/-- `MeasurePolicy` model of `domain.py`. -/
structure MeasurePolicy where
  name : String
  unit : Option String := none
  trend_deadband : Option ℚ := none
  directionality : MeasureDirectionality := MeasureDirectionality.unknown
deriving DecidableEq, Repr

/-- `MeasureJudgment` model of `domain.py`. -/
structure MeasureJudgment where
  status : Status
  distance_from_preference : Option ℚ := none
  severity : Option RiskSeverity := none
  reasons : List String := []
  trend : Option Trend := none
  trend_delta : Option ℚ := none
  trend_confidence : Option ℚ := none
deriving DecidableEq, Repr

/-- `RiskFlag` model of `domain.py` (`confidence` and `priority` keep their
defaults everywhere in the engine and are elided). -/
structure RiskFlag where
  code : RiskCode
  severity : RiskSeverity
  evidence : List String := []
deriving DecidableEq, Repr

/-- `RiderPreferences` model of `domain.py` (the fields the engine reads). -/
structure RiderPreferences where
  preferred_temp_range_f : Option (ℚ × ℚ) := none
  prefer_daylight : Option Bool := none
  max_wind_mph : Option ℚ := none
  avoid_poor_aqi : Option Bool := none
  max_aqi : Option ℚ := none
  avoid_precip : Option Bool := none
deriving DecidableEq, Repr

/-- `HourAssessment` model of `domain.py`.  `decision` is non-optional here:
every constructor call in the engine supplies it. -/
structure HourAssessment where
  time : ℤ
  hour_index : Option ℤ := none
  decision : Decision
  judgments : List (String × MeasureJudgment) := []
  risks : List RiskFlag := []
  hour_score : Option ℝ := none
  notes : List String := []

instance : Inhabited HourAssessment :=
  ⟨{ time := 0, decision := Decision.unknown }⟩

/-- `WindowRecommendation` model of `domain.py`.  The source field `end` is a
Lean keyword and is rendered `stop`; `duration` (a `timedelta` of the requested
minutes) is rendered as the minute count. -/
structure WindowRecommendation where
  start : ℤ
  stop : ℤ
  duration_minutes : ℕ
  decision : Decision
  window_score : Option ℝ := none
  reasons : List String := []
  risks : List RiskFlag := []

/-- One hour snapshot as read by `_get_field` in `assess_hour`:
`time = none` models an absent or non-datetime `time` field. -/
structure Snapshot where
  time : Option ℤ := none
  hour_index : Option ℤ := none
  temperature : Option ℚ := none
  wind_speed : Option ℚ := none
  wind_gusts : Option ℚ := none
  us_aqi : Option ℚ := none
  precipitation_prob : Option ℚ := none
  is_day : Option Bool := none
deriving DecidableEq, Repr

/-- `BikeConditions` of `forecast_service.py` as consumed by
`assess_timeline`: an optional current snapshot and a forecast list that may
contain null entries. -/
structure BikeConditions where
  current : Option Snapshot := none
  forecast : List (Option Snapshot) := []
deriving DecidableEq, Repr

/-- `max_wind = prefs.max_wind_mph or 25.0`: Python `or` replaces both a
missing and a zero (falsy) preference with the default. -/
def windLimit (p : RiderPreferences) : ℚ :=
  match p.max_wind_mph with
  | none => 25
  | some w => if w = 0 then 25 else w

/-- `max_aqi = prefs.max_aqi or 80` (same falsy-default behaviour). -/
def aqiLimit (p : RiderPreferences) : ℚ :=
  match p.max_aqi with
  | none => 80
  | some a => if a = 0 then 80 else a

/-- `_judge_temperature` of `assessment_engine.py`. -/
def judgeTemperature (temp_f : Option ℚ) (prefs : RiderPreferences) :
    MeasureJudgment × List RiskFlag :=
  match temp_f, prefs.preferred_temp_range_f with
  | none, _ => ({ status := Status.unknown, reasons := [] }, [])
  | some _, none => ({ status := Status.unknown, reasons := [] }, [])
  | some t, some (lower, upper) =>
    if t < lower then
      let distance := lower - t
      if t < 32 then
        let severity := if t ≤ 25 then RiskSeverity.major else RiskSeverity.moderate
        let reasons := ["Very cold"]
        ({ status := Status.avoid, distance_from_preference := some distance,
           severity := some severity, reasons := reasons },
         [{ code := RiskCode.extreme_cold, severity := severity, evidence := reasons }])
      else if distance > 20 then
        let reasons := ["Cold"]
        ({ status := Status.caution, distance_from_preference := some distance,
           severity := some RiskSeverity.moderate, reasons := reasons },
         [{ code := RiskCode.extreme_cold, severity := RiskSeverity.moderate,
            evidence := reasons }])
      else if distance > 10 then
        let reasons := ["Cold"]
        ({ status := Status.caution, distance_from_preference := some distance,
           severity := some RiskSeverity.moderate, reasons := reasons },
         [{ code := RiskCode.extreme_cold, severity := RiskSeverity.moderate,
            evidence := reasons }])
      else if distance > 5 then
        ({ status := Status.acceptable, distance_from_preference := some distance,
           reasons := ["Slightly cool below preferred"] }, [])
      else
        ({ status := Status.acceptable, distance_from_preference := some distance,
           reasons := ["Slightly cool just below preferred"] }, [])
    else if t > upper then
      let distance := t - upper
      if distance > 15 then
        let reasons := ["Very hot"]
        ({ status := Status.avoid, distance_from_preference := some distance,
           severity := some RiskSeverity.major, reasons := reasons },
         [{ code := RiskCode.extreme_heat, severity := RiskSeverity.major,
            evidence := reasons }])
      else if distance > 5 then
        let reasons := ["Hot"]
        ({ status := Status.caution, distance_from_preference := some distance,
           severity := some RiskSeverity.moderate, reasons := reasons },
         [{ code := RiskCode.extreme_heat, severity := RiskSeverity.moderate,
            evidence := reasons }])
      else
        ({ status := Status.acceptable, distance_from_preference := some distance,
           reasons := ["Slightly warm just above preferred"] }, [])
    else
      ({ status := Status.ideal, distance_from_preference := some 0,
         reasons := ["Comfortable"] }, [])

/-- `_judge_wind` of `assessment_engine.py`. -/
def judgeWind (wind_mph : Option ℚ) (prefs : RiderPreferences) :
    MeasureJudgment × List RiskFlag :=
  match wind_mph with
  | none => ({ status := Status.unknown, reasons := [] }, [])
  | some w =>
    let max_wind := windLimit prefs
    if w > max_wind + 5 then
      let reasons := ["Wind above limit"]
      ({ status := Status.avoid, distance_from_preference := some (w - max_wind),
         severity := some RiskSeverity.major, reasons := reasons },
       [{ code := RiskCode.high_wind, severity := RiskSeverity.major,
          evidence := reasons }])
    else if w > max_wind then
      let reasons := ["Wind exceeds preferred"]
      ({ status := Status.caution, distance_from_preference := some (w - max_wind),
         severity := some RiskSeverity.moderate, reasons := reasons },
       [{ code := RiskCode.high_wind, severity := RiskSeverity.moderate,
          evidence := reasons }])
    else if w > max_wind * 0.8 then
      ({ status := Status.acceptable, distance_from_preference := some (max_wind - w),
         reasons := ["Wind near limit"] }, [])
    else
      ({ status := Status.ideal, distance_from_preference := some (max_wind - w),
         reasons := ["Wind within preference"] }, [])

/-- `_judge_gusts` of `assessment_engine.py`. -/
def judgeGusts (gust_mph : Option ℚ) (prefs : RiderPreferences) :
    MeasureJudgment × List RiskFlag :=
  match gust_mph with
  | none => ({ status := Status.unknown, reasons := [] }, [])
  | some g =>
    let max_wind := windLimit prefs
    if g > max_wind + 15 then
      let reasons := ["Gusts well above limit"]
      ({ status := Status.avoid, distance_from_preference := some (g - max_wind),
         severity := some RiskSeverity.major, reasons := reasons },
       [{ code := RiskCode.gusty_wind, severity := RiskSeverity.major,
          evidence := reasons }])
    else if g > max_wind + 5 then
      let reasons := ["Gusts above preferred wind"]
      ({ status := Status.caution, distance_from_preference := some (g - max_wind),
         severity := some RiskSeverity.moderate, reasons := reasons },
       [{ code := RiskCode.gusty_wind, severity := RiskSeverity.moderate,
          evidence := reasons }])
    else if g > max_wind then
      ({ status := Status.acceptable, distance_from_preference := some (g - max_wind),
         reasons := ["Gusts slightly above preferred wind"] }, [])
    else
      ({ status := Status.ideal, distance_from_preference := some (max_wind - g),
         reasons := ["Gusts within preference"] }, [])

/-- `_judge_aqi` of `assessment_engine.py`. -/
def judgeAqi (aqi : Option ℚ) (prefs : RiderPreferences) :
    MeasureJudgment × List RiskFlag :=
  match aqi with
  | none => ({ status := Status.unknown, reasons := [] }, [])
  | some a =>
    let max_aqi := aqiLimit prefs
    let distance := a - max_aqi
    if a ≥ 151 then
      let reasons := ["AQI unhealthy"]
      ({ status := Status.avoid, distance_from_preference := some distance,
         severity := some RiskSeverity.major, reasons := reasons },
       [{ code := RiskCode.poor_air_quality, severity := RiskSeverity.major,
          evidence := reasons }])
    else if prefs.avoid_poor_aqi ≠ some false ∧ a > max_aqi then
      let reasons := ["AQI exceeds preferred max"]
      ({ status := Status.caution, distance_from_preference := some distance,
         severity := some RiskSeverity.moderate, reasons := reasons },
       [{ code := RiskCode.poor_air_quality, severity := RiskSeverity.moderate,
          evidence := reasons }])
    else if a ≤ 50 then
      ({ status := Status.ideal, distance_from_preference := some distance,
         reasons := ["AQI good"] }, [])
    else
      ({ status := Status.acceptable, distance_from_preference := some distance,
         reasons := ["AQI within preferred range"] }, [])

/-- `_judge_precip` of `assessment_engine.py` (the two nested checks under
`if avoid_precip` are flattened into guarded branches). -/
def judgePrecip (prob : Option ℚ) (prefs : RiderPreferences) :
    MeasureJudgment × List RiskFlag :=
  match prob with
  | none => ({ status := Status.unknown, reasons := [] }, [])
  | some pr =>
    if prefs.avoid_precip ≠ some false ∧ pr ≥ 70 then
      let reasons := ["Precipitation probability high"]
      ({ status := Status.avoid, distance_from_preference := some pr,
         severity := some RiskSeverity.moderate, reasons := reasons },
       [{ code := RiskCode.precipitation, severity := RiskSeverity.moderate,
          evidence := reasons }])
    else if prefs.avoid_precip ≠ some false ∧ pr ≥ 50 then
      let reasons := ["Precipitation probability elevated"]
      ({ status := Status.caution, distance_from_preference := some pr,
         severity := some RiskSeverity.minor, reasons := reasons },
       [{ code := RiskCode.precipitation, severity := RiskSeverity.minor,
          evidence := reasons }])
    else if pr ≥ 80 then
      let reasons := ["Precipitation probability may impact ride"]
      ({ status := Status.caution, distance_from_preference := some pr,
         severity := some RiskSeverity.minor, reasons := reasons },
       [{ code := RiskCode.precipitation, severity := RiskSeverity.minor,
          evidence := reasons }])
    else if pr ≥ 20 then
      ({ status := Status.acceptable, distance_from_preference := some pr,
         reasons := ["Precipitation probability low"] }, [])
    else
      ({ status := Status.ideal, distance_from_preference := some pr,
         reasons := ["Precipitation probability minimal"] }, [])

/-- `_judge_daylight` of `assessment_engine.py`: the rider-preference check
comes before the null check, so a rider who does not prefer daylight gets
`ideal` even for a null reading. -/
def judgeDaylight (is_day : Option Bool) (prefs : RiderPreferences) :
    MeasureJudgment × List RiskFlag :=
  if prefs.prefer_daylight = some true then
    match is_day with
    | none => ({ status := Status.unknown, reasons := [] }, [])
    | some false =>
      let reasons := ["Riding in darkness"]
      ({ status := Status.caution, reasons := reasons },
       [{ code := RiskCode.darkness, severity := RiskSeverity.minor,
          evidence := reasons }])
    | some true => ({ status := Status.ideal, reasons := ["Daylight ride"] }, [])
  else
    ({ status := Status.ideal, reasons := [] }, [])

/-- `_compute_decision` of `assessment_engine.py`: the Python set
`{j.status for j in judgments.values()}` is the `Finset` of statuses. -/
def statusSet (judgments : List (String × MeasureJudgment)) : Finset Status :=
  (judgments.map fun e => e.2.status).toFinset

/-- `_compute_decision` of `assessment_engine.py`. -/
def computeDecision (judgments : List (String × MeasureJudgment)) : Decision :=
  if Status.avoid ∈ statusSet judgments then Decision.avoid
  else if Status.caution ∈ statusSet judgments then Decision.go_with_caution
  else if statusSet judgments = {Status.unknown} ∨ statusSet judgments = ∅ then
    Decision.unknown
  else Decision.go

/-- `_clamp_score` of `assessment_engine.py`. -/
noncomputable def clampScore (score : ℝ) : ℝ :=
  max 0 (min 10 score)

/-- `_temperature_penalty` of `assessment_engine.py`: `not distance` is true
for both `None` and `0.0`, so the guard collapses to `distance ≤ 0`. -/
noncomputable def temperaturePenalty (distance : Option ℚ) : ℝ :=
  match distance with
  | none => 0
  | some d => if d ≤ 0 then 0 else min 4 (((d : ℝ) / 10) ^ (1.5 : ℝ) * 2)

/-- Per-status penalty of the `_score_hour` loop. -/
def statusPenalty (s : Status) : ℝ :=
  match s with
  | Status.avoid => 4
  | Status.caution => 2
  | Status.acceptable => 1
  | Status.ideal => 0
  | Status.unknown => 0

/-- `_score_hour` of `assessment_engine.py`: fold over the judgment dict in
insertion order, subtracting the status penalty and, for the
`temperature_f` key, the continuous temperature penalty. -/
noncomputable def scoreHour (judgments : List (String × MeasureJudgment)) : ℝ :=
  clampScore <| judgments.foldl
    (fun score e =>
      score - statusPenalty e.2.status -
        (if e.1 = "temperature_f" then temperaturePenalty e.2.distance_from_preference
         else 0))
    10

/-- `assess_hour` of `assessment_engine.py`.  The `ValueError` raised for a
missing or non-datetime `time` is the `Except.error` branch. -/
noncomputable def assessHour (preferences : RiderPreferences) (hour_snapshot : Snapshot) :
    Except String HourAssessment :=
  match hour_snapshot.time with
  | none => Except.error "hour_snapshot.time must be a datetime"
  | some time_val =>
    let jt := judgeTemperature hour_snapshot.temperature preferences
    let jw := judgeWind hour_snapshot.wind_speed preferences
    let jg := judgeGusts hour_snapshot.wind_gusts preferences
    let ja := judgeAqi hour_snapshot.us_aqi preferences
    let jp := judgePrecip hour_snapshot.precipitation_prob preferences
    let jd := judgeDaylight hour_snapshot.is_day preferences
    let judgments : List (String × MeasureJudgment) :=
      [("temperature_f", jt.1), ("wind_speed_mph", jw.1), ("wind_gusts_mph", jg.1),
       ("us_aqi", ja.1), ("precipitation_prob_percent", jp.1), ("daylight", jd.1)]
    let risks := jt.2 ++ jw.2 ++ jg.2 ++ ja.2 ++ jp.2 ++ jd.2
    Except.ok
      { time := time_val
        hour_index := hour_snapshot.hour_index
        decision := computeDecision judgments
        judgments := judgments
        risks := risks
        hour_score := some (scoreHour judgments)
        notes := [] }

/-- `DEFAULT_MEASURE_POLICIES` of `domain.py`. -/
def defaultMeasurePolicies : List (String × MeasurePolicy) :=
  [("temperature_f",
    { name := "temperature_f", unit := some "F", trend_deadband := some 1,
      directionality := MeasureDirectionality.target_band }),
   ("apparent_temperature_f",
    { name := "apparent_temperature_f", unit := some "F", trend_deadband := some 1,
      directionality := MeasureDirectionality.target_band }),
   ("wind_speed_mph",
    { name := "wind_speed_mph", unit := some "mph", trend_deadband := some 1,
      directionality := MeasureDirectionality.lower_is_better }),
   ("wind_gusts_mph",
    { name := "wind_gusts_mph", unit := some "mph", trend_deadband := some 2,
      directionality := MeasureDirectionality.lower_is_better }),
   ("us_aqi",
    { name := "us_aqi", unit := some "aqi", trend_deadband := some 3,
      directionality := MeasureDirectionality.lower_is_better }),
   ("precipitation_prob_percent",
    { name := "precipitation_prob_percent", unit := some "percent",
      trend_deadband := some 5,
      directionality := MeasureDirectionality.lower_is_better }),
   ("precipitation_mm",
    { name := "precipitation_mm", unit := some "mm", trend_deadband := some (1/10),
      directionality := MeasureDirectionality.lower_is_better }),
   ("uv_index",
    { name := "uv_index", unit := some "uv", trend_deadband := some (1/5),
      directionality := MeasureDirectionality.lower_is_better })]

/-- `_trend_direction` of `assessment_engine.py`.  `policy.trend_deadband or
0.0` maps both a missing and a zero deadband to `0`.  A directionality that is
neither `higher_is_better` nor `lower_is_better` (both `target_band` and
`unknown`) falls through to the final `target_band` return. -/
def trendDirection (value prev : ℚ) (policy : MeasurePolicy) : Trend :=
  let delta := value - prev
  let deadband := policy.trend_deadband.getD 0
  if |delta| ≤ deadband then Trend.stable
  else if policy.directionality = MeasureDirectionality.higher_is_better then
    if delta > 0 then Trend.improving else Trend.worsening
  else if policy.directionality = MeasureDirectionality.lower_is_better then
    if delta < 0 then Trend.improving else Trend.worsening
  else if delta < 0 then Trend.improving else Trend.worsening

/-- `policies.get(key, DEFAULT_MEASURE_POLICIES.get(key))` in `_apply_trends`. -/
def policyResolve (policies : List (String × MeasurePolicy)) (key : String) :
    Option MeasurePolicy :=
  (policies.lookup key).orElse fun _ => defaultMeasurePolicies.lookup key

/-- The body of the `_apply_trends` loop for one judgment entry: returns the
(possibly trend-annotated) judgment that the in-place mutation leaves behind. -/
def trendUpdate (policies : List (String × MeasurePolicy)) (prev : HourAssessment)
    (key : String) (judgment : MeasureJudgment) : MeasureJudgment :=
  match policyResolve policies key with
  | none => judgment
  | some policy =>
    match prev.judgments.lookup key with
    | none => judgment
    | some prev_j =>
      match judgment.distance_from_preference, prev_j.distance_from_preference with
      | some val, some prev_val =>
        let trend := trendDirection val prev_val policy
        if trend = Trend.unknown then judgment
        else
          { judgment with
              trend := some trend
              trend_delta := some (val - prev_val)
              trend_confidence := some 1 }
      | some _, none => judgment
      | none, _ => judgment

/-- `_apply_trends` of `assessment_engine.py`, rendered functionally: the
source mutates `current.judgments` in place; here the updated assessment is
returned. -/
def applyTrends (current : HourAssessment) (prev : Option HourAssessment)
    (policies : List (String × MeasurePolicy)) : HourAssessment :=
  match prev with
  | none => current
  | some prevA =>
    { current with
        judgments := current.judgments.map fun e => (e.1, trendUpdate policies prevA e.1 e.2) }

/-- Sort key of the forecast sort in `assess_timeline`:
`(time, hour_index or 0)` compared lexicographically, as Python compares
tuples.  (Python raises a `TypeError` when it compares a `None` time with a
datetime; those inputs make `assess_timeline` fail either way — see the
timestamp-validation claim — so the `getD 0` placeholder never matters on
inputs where the source returns.) -/
def snapshotLe (a b : Snapshot) : Prop :=
  a.time.getD 0 < b.time.getD 0 ∨
    (a.time.getD 0 = b.time.getD 0 ∧ a.hour_index.getD 0 ≤ b.hour_index.getD 0)

instance : DecidableRel snapshotLe := fun a b => by
  unfold snapshotLe; infer_instance

/-- The key-normalization step of `assess_timeline` (step 4): the key set of
the current assessment (else the first forecast assessment) is canonical and
missing keys get a synthetic unknown judgment.  The source iterates a Python
set; here missing keys are appended in canonical-key order (the engine never
actually has a missing key, see the fixed-key-set claim). -/
def normalizeKeys (current : Option HourAssessment) (hourly : List HourAssessment) :
    List HourAssessment :=
  if current.isNone && hourly.isEmpty then hourly
  else
    let keySource : List String :=
      match current with
      | some c => c.judgments.map Prod.fst
      | none => (hourly.headD default).judgments.map Prod.fst
    hourly.map fun a =>
      let missing := keySource.filter fun k => !((a.judgments.map Prod.fst).contains k)
      { a with
          judgments :=
            a.judgments ++ missing.map fun k => (k, { status := Status.unknown, reasons := [] }) }

/-- The trend loop of `assess_timeline` (step 5): each hour is annotated
against its predecessor, seeded with the current assessment. -/
def trendFold (policies : List (String × MeasurePolicy))
    (prev : Option HourAssessment) : List HourAssessment → List HourAssessment
  | [] => []
  | a :: rest =>
    let a2 := applyTrends a prev policies
    a2 :: trendFold policies (some a2) rest

/-- The per-hour loop of `assess_timeline`: assess every (sorted) forecast
snapshot, propagating the first validation error. -/
noncomputable def assessHours (preferences : RiderPreferences) :
    List Snapshot → Except String (List HourAssessment)
  | [] => pure []
  | s :: rest => do
    let a ← assessHour preferences s
    let others ← assessHours preferences rest
    pure (a :: others)

/-- `assess_timeline` of `assessment_engine.py`.  `policies or
DEFAULT_MEASURE_POLICIES` falls back to the default table for both a missing
and an empty (falsy) override. -/
noncomputable def assessTimeline (preferences : RiderPreferences)
    (conditions : BikeConditions)
    (policies : Option (List (String × MeasurePolicy)) := none) :
    Except String (Option HourAssessment × List HourAssessment) :=
  let currentE : Except String (Option HourAssessment) :=
    match conditions.current with
    | some snap => Except.map some (assessHour preferences snap)
    | none => Except.ok none
  match currentE with
  | Except.error e => Except.error e
  | Except.ok current_assessment =>
    let hours := conditions.forecast.filterMap id
    let hoursSorted := List.insertionSort snapshotLe hours
    match assessHours preferences hoursSorted with
    | Except.error e => Except.error e
    | Except.ok hourly_assessments =>
      let normalized := normalizeKeys current_assessment hourly_assessments
      let policy_map :=
        match policies with
        | none => defaultMeasurePolicies
        | some l => if l.isEmpty then defaultMeasurePolicies else l
      Except.ok (current_assessment, trendFold policy_map current_assessment normalized)

/-- `_consecutive` of `assessment_engine.py`: every adjacent pair of
timestamps differs from one hour by at most the 90 second drift allowance
(lists of length below two are trivially consecutive). -/
def consecutive (hours : List HourAssessment) : Bool :=
  (hours.zip hours.tail).all fun pc =>
    decide ((pc.2.time - pc.1.time - 3600).natAbs ≤ 90)

/-- `_aggregate_decision` of `assessment_engine.py` (hour decisions of a
window, collapsed through the Python set of decisions). -/
def decisionSet (hours : List HourAssessment) : Finset Decision :=
  (hours.map fun h => h.decision).toFinset

/-- `_aggregate_decision` of `assessment_engine.py`. -/
def aggregateDecision (hours : List HourAssessment) : Decision :=
  if Decision.avoid ∈ decisionSet hours then Decision.avoid
  else if Decision.go_with_caution ∈ decisionSet hours then Decision.go_with_caution
  else if Decision.go ∈ decisionSet hours then Decision.go
  else Decision.unknown

/-- `_overall_decision` of `assessment_engine.py` (verbatim twin of
`_aggregate_decision` in the source). -/
def overallDecision (hours : List HourAssessment) : Decision :=
  if Decision.avoid ∈ decisionSet hours then Decision.avoid
  else if Decision.go_with_caution ∈ decisionSet hours then Decision.go_with_caution
  else if Decision.go ∈ decisionSet hours then Decision.go
  else Decision.unknown

/-- Chronological sort relation of `compute_window_recommendations`
(`key=lambda h: h.time`). -/
def hourTimeLe (a b : HourAssessment) : Prop :=
  a.time ≤ b.time

instance : DecidableRel hourTimeLe := fun a b => by
  unfold hourTimeLe; infer_instance

/-- Sort key of the final window ranking:
`(-1 if r.window_score is None else -r.window_score, r.start)`. -/
noncomputable def windowSortKey (r : WindowRecommendation) : ℝ :=
  match r.window_score with
  | none => -1
  | some s => -s

/-- The ranking relation of `compute_window_recommendations`: lexicographic
on `(windowSortKey, start)`, as Python compares the sort-key tuples. -/
def windowRecLe (a b : WindowRecommendation) : Prop :=
  windowSortKey a < windowSortKey b ∨
    (windowSortKey a = windowSortKey b ∧ a.start ≤ b.start)

noncomputable instance : DecidableRel windowRecLe := fun _ _ =>
  Classical.propDecidable _

/-- `compute_window_recommendations` of `assessment_engine.py`.

`needed_hours = ceil(duration / 60)` is `(duration + 59) / 60` in `ℕ`.
For a duration of `0` minutes the source divides by `needed_hours = 0` and
raises `ZeroDivisionError` before building any recommendation; the model
returns no recommendation for such a degenerate candidate (the empty-slice
match arm), which agrees with the source on every input the source returns
from.  Python's stable `list.sort` is modelled with `List.insertionSort`,
which is also stable. -/
noncomputable def computeWindowRecommendations (hourly : List HourAssessment)
    (durations_minutes : List ℕ := [45, 60, 90, 120]) : List WindowRecommendation :=
  if hourly.isEmpty then []
  else
    let hourly_sorted := List.insertionSort hourTimeLe hourly
    let recs := (List.range hourly_sorted.length).flatMap fun start_idx =>
      durations_minutes.filterMap fun duration =>
        let needed_hours := (duration + 59) / 60
        let slice_hours := (hourly_sorted.drop start_idx).take needed_hours
        if slice_hours.length < needed_hours then none
        else if !consecutive slice_hours then none
        else if slice_hours.any fun h => h.decision = Decision.avoid then none
        else
          match slice_hours with
          | [] => none
          | first :: rest =>
            let window_score : ℝ :=
              (((first :: rest).map fun h => h.hour_score.getD 0).sum) / (needed_hours : ℝ)
            some
              { start := first.time
                stop := ((first :: rest).getLast (List.cons_ne_nil first rest)).time
                duration_minutes := duration
                decision := aggregateDecision (first :: rest)
                window_score := some window_score
                reasons := ["Average score over the window hours"]
                risks := (first :: rest).flatMap fun h => h.risks }
    List.insertionSort windowRecLe recs

/-- The aggregation rule exactly as the spec words it for statuses: any
`avoid`, else any `caution`, else all-unknown-or-empty, else `go`. -/
def specStatusAggregation (judgments : List (String × MeasureJudgment)) : Decision :=
  if judgments.any fun e => e.2.status == Status.avoid then Decision.avoid
  else if judgments.any fun e => e.2.status == Status.caution then Decision.go_with_caution
  else if judgments.all fun e => e.2.status == Status.unknown then Decision.unknown
  else Decision.go

/-- The same spec rule applied to hour decisions. -/
def specDecisionAggregation (hours : List HourAssessment) : Decision :=
  if hours.any fun h => h.decision == Decision.avoid then Decision.avoid
  else if hours.any fun h => h.decision == Decision.go_with_caution then
    Decision.go_with_caution
  else if hours.all fun h => h.decision == Decision.unknown then Decision.unknown
  else Decision.go

theorem mem_statusSet {s : Status} {js : List (String × MeasureJudgment)} :
    s ∈ statusSet js ↔ ∃ e ∈ js, e.2.status = s := by
  simp [statusSet]

theorem mem_decisionSet {d : Decision} {hs : List HourAssessment} :
    d ∈ decisionSet hs ↔ ∃ h ∈ hs, h.decision = d := by
  simp [decisionSet]

theorem statusSet_unknown_iff (js : List (String × MeasureJudgment)) :
    (statusSet js = {Status.unknown} ∨ statusSet js = ∅) ↔
      ∀ e ∈ js, e.2.status = Status.unknown := by
  rw [or_comm, ← Finset.subset_singleton_iff]
  constructor
  · intro hsub e he
    have : e.2.status ∈ statusSet js := mem_statusSet.mpr ⟨e, he, rfl⟩
    simpa using hsub this
  · intro hall s hsmem
    obtain ⟨e, he, hes⟩ := mem_statusSet.mp hsmem
    simp [← hes, hall e he]

theorem computeDecision_eq_spec (js : List (String × MeasureJudgment)) :
    computeDecision js = specStatusAggregation js := by
  unfold computeDecision specStatusAggregation
  simp only [mem_statusSet, statusSet_unknown_iff, List.any_eq_true,
    List.all_eq_true, beq_iff_eq]

theorem aggregateDecision_eq_spec (hs : List HourAssessment) :
    aggregateDecision hs = specDecisionAggregation hs := by
  unfold aggregateDecision specDecisionAggregation
  simp only [mem_decisionSet, List.any_eq_true, List.all_eq_true, beq_iff_eq]
  by_cases hA : ∃ h ∈ hs, h.decision = Decision.avoid
  · simp [hA]
  · by_cases hC : ∃ h ∈ hs, h.decision = Decision.go_with_caution
    · simp [hA, hC]
    · by_cases hG : ∃ h ∈ hs, h.decision = Decision.go
      · have hAllfalse : ¬ ∀ h ∈ hs, h.decision = Decision.unknown := by
          obtain ⟨h, hm, hd⟩ := hG
          intro hall
          exact absurd (hall h hm) (by simp [hd])
        simp [hA, hC, hG, hAllfalse]
      · have hAll : ∀ h ∈ hs, h.decision = Decision.unknown := by
          intro h hm
          cases hd : h.decision with
          | avoid => exact absurd ⟨h, hm, hd⟩ hA
          | go_with_caution => exact absurd ⟨h, hm, hd⟩ hC
          | go => exact absurd ⟨h, hm, hd⟩ hG
          | unknown => rfl
        simp only [hA, hC, hG, exists_false, if_false]
        exact (if_pos hAll).symm

/-- C1.  For every map of measure judgments the hour decision is: `avoid` if
any judgment status is `avoid`; otherwise `go_with_caution` if any status is
`caution`; otherwise `unknown` when every status is `unknown` (also for the
empty map); otherwise `go` — and the identical rule applied to decisions is
what `_aggregate_decision` (hour-to-window) and `_overall_decision`
(hour-list-to-summary) compute. -/
theorem decision_aggregation_follows_spec_rule :
    (∀ judgments, computeDecision judgments = specStatusAggregation judgments) ∧
    (∀ hours, aggregateDecision hours = specDecisionAggregation hours) ∧
    (∀ hours, overallDecision hours = specDecisionAggregation hours) :=
  ⟨computeDecision_eq_spec, aggregateDecision_eq_spec,
    fun hours => aggregateDecision_eq_spec hours⟩

/-- Combined penalty of one judgment entry in the `_score_hour` loop. -/
noncomputable def entryPenalty (e : String × MeasureJudgment) : ℝ :=
  statusPenalty e.2.status +
    (if e.1 = "temperature_f" then temperaturePenalty e.2.distance_from_preference
     else 0)

theorem scoreHour_foldl (js : List (String × MeasureJudgment)) :
    ∀ a : ℝ,
      js.foldl
        (fun score e =>
          score - statusPenalty e.2.status -
            (if e.1 = "temperature_f" then temperaturePenalty e.2.distance_from_preference
             else 0))
        a = a - (js.map entryPenalty).sum := by
  induction js with
  | nil => intro a; simp
  | cons e js ih =>
    intro a
    simp only [List.foldl_cons, List.map_cons, List.sum_cons, ih, entryPenalty]
    ring

theorem entryPenalty_sum (js : List (String × MeasureJudgment)) :
    (js.map entryPenalty).sum =
      4 * ((js.filter fun e => e.2.status == Status.avoid).length : ℝ) +
        2 * ((js.filter fun e => e.2.status == Status.caution).length : ℝ) +
        1 * ((js.filter fun e => e.2.status == Status.acceptable).length : ℝ) +
        ((js.filter fun e => e.1 == "temperature_f").map fun e =>
            temperaturePenalty e.2.distance_from_preference).sum := by
  induction js with
  | nil => simp
  | cons e js ih =>
    simp only [List.map_cons, List.sum_cons, ih, List.filter_cons]
    by_cases hk : e.1 = "temperature_f" <;>
      cases hs : e.2.status <;>
        simp [entryPenalty, statusPenalty, hk, hs] <;> push_cast <;> ring

theorem clampScore_nonneg (s : ℝ) : 0 ≤ clampScore s :=
  le_max_left 0 _

theorem clampScore_le_ten (s : ℝ) : clampScore s ≤ 10 :=
  max_le (by norm_num) (min_le_left 10 s)

/-- C2.  The hour score is the clamp to `[0, 10]` of `10` minus `4` per
`avoid` judgment, `2` per `caution`, `1` per `acceptable` (nothing for
`ideal`/`unknown`), minus — for the `temperature_f` entry only — the
continuous penalty `min(4, ((distance / 10) ^ 1.5) * 2)` for a positive
distance; and the score is always within `[0, 10]`. -/
theorem hour_score_formula_and_bounds :
    (∀ js : List (String × MeasureJudgment),
      scoreHour js =
        clampScore
          (10 -
            (4 * ((js.filter fun e => e.2.status == Status.avoid).length : ℝ) +
              2 * ((js.filter fun e => e.2.status == Status.caution).length : ℝ) +
              1 * ((js.filter fun e => e.2.status == Status.acceptable).length : ℝ) +
              ((js.filter fun e => e.1 == "temperature_f").map fun e =>
                  temperaturePenalty e.2.distance_from_preference).sum))) ∧
    (∀ d : ℚ, 0 < d →
      temperaturePenalty (some d) = min 4 (((d : ℝ) / 10) ^ (1.5 : ℝ) * 2)) ∧
    (∀ js : List (String × MeasureJudgment),
      0 ≤ scoreHour js ∧ scoreHour js ≤ 10) := by
  refine ⟨fun js => ?_, fun d hd => ?_, fun js => ⟨clampScore_nonneg _, clampScore_le_ten _⟩⟩
  · rw [scoreHour, scoreHour_foldl js 10, entryPenalty_sum]
  · rw [temperaturePenalty, if_neg (not_le.mpr hd)]

/-- Witness for the hypothesis-bearing part of the hour-score theorem: the
continuous-penalty formula evaluated at the concrete positive distance `5`. -/
theorem hour_score_formula_witness :
    temperaturePenalty (some 5) = min 4 ((((5 : ℚ) : ℝ) / 10) ^ (1.5 : ℝ) * 2) :=
  hour_score_formula_and_bounds.2.1 5 (by norm_num)

theorem trendDirection_ne_unknown (v pv : ℚ) (pol : MeasurePolicy) :
    trendDirection v pv pol ≠ Trend.unknown := by
  unfold trendDirection
  split_ifs <;> simp <;> split_ifs <;> simp

/-- C5.  The trend analyzer leaves a judgment untouched when there is no
predecessor hour, no resolvable policy, no predecessor judgment, or a missing
distance on either side; otherwise, with `delta = value − prev`, it annotates
the judgment with `stable` when `|delta|` is at most the policy deadband
(boundary included), and else with the direction given by the policy
directionality (`higher_is_better`: positive delta improves;
`lower_is_better` and `target_band`: negative delta improves). -/
theorem trend_annotation_follows_policy :
    (∀ current policies, applyTrends current none policies = current) ∧
    (∀ current prevA policies,
      applyTrends current (some prevA) policies =
        { current with
            judgments :=
              current.judgments.map fun e => (e.1, trendUpdate policies prevA e.1 e.2) }) ∧
    (∀ policies prevA key j,
      policyResolve policies key = none → trendUpdate policies prevA key j = j) ∧
    (∀ policies prevA key j pol, policyResolve policies key = some pol →
      (prevA.judgments.lookup key = none → trendUpdate policies prevA key j = j) ∧
      (∀ pj, prevA.judgments.lookup key = some pj →
        ((j.distance_from_preference = none ∨ pj.distance_from_preference = none) →
          trendUpdate policies prevA key j = j) ∧
        (∀ v pv, j.distance_from_preference = some v →
          pj.distance_from_preference = some pv →
          trendUpdate policies prevA key j =
            { j with
                trend := some (trendDirection v pv pol)
                trend_delta := some (v - pv)
                trend_confidence := some 1 }))) ∧
    (∀ v pv : ℚ, ∀ pol : MeasurePolicy,
      (|v - pv| ≤ pol.trend_deadband.getD 0 → trendDirection v pv pol = Trend.stable) ∧
      (pol.trend_deadband.getD 0 < |v - pv| →
        (pol.directionality = MeasureDirectionality.higher_is_better →
          trendDirection v pv pol =
            if v - pv > 0 then Trend.improving else Trend.worsening) ∧
        (pol.directionality = MeasureDirectionality.lower_is_better →
          trendDirection v pv pol =
            if v - pv < 0 then Trend.improving else Trend.worsening) ∧
        (pol.directionality = MeasureDirectionality.target_band →
          trendDirection v pv pol =
            if v - pv < 0 then Trend.improving else Trend.worsening))) := by
  refine ⟨fun current policies => rfl, fun current prevA policies => rfl,
    ?_, ?_, ?_⟩
  · intro policies prevA key j h
    simp [trendUpdate, h]
  · intro policies prevA key j pol hpol
    refine ⟨fun h => by simp [trendUpdate, hpol, h], fun pj hpj => ⟨fun hnone => ?_, ?_⟩⟩
    · rcases hnone with h | h
      · simp [trendUpdate, hpol, hpj, h]
      · cases hd : j.distance_from_preference <;> simp [trendUpdate, hpol, hpj, h, hd]
    · intro v pv hv hpv
      simp [trendUpdate, hpol, hpj, hv, hpv, trendDirection_ne_unknown]
  · intro v pv pol
    constructor
    · intro h
      unfold trendDirection
      rw [if_pos h]
    · intro h
      have hns := not_le.mpr h
      refine ⟨fun hd => ?_, fun hd => ?_, fun hd => ?_⟩ <;>
        simp [trendDirection, hns, hd]

/-- Witness fixtures for the trend theorem. -/
def trendWitnessPol : MeasurePolicy :=
  { name := "temperature_f", unit := some "F", trend_deadband := some 1,
    directionality := MeasureDirectionality.target_band }

/-- Previous-hour fixture carrying a temperature distance of `9`. -/
def trendWitnessPrev : HourAssessment :=
  { time := 0, decision := Decision.unknown,
    judgments :=
      [("temperature_f",
        { status := Status.acceptable, distance_from_preference := some 9 })] }

/-- Current-hour judgment fixture carrying a temperature distance of `5`. -/
def trendWitnessJ : MeasureJudgment :=
  { status := Status.acceptable, distance_from_preference := some 5 }

/-- Witness: the trend theorem applied at concrete inputs — the distance to
the band shrinking from `9` to `5` under the default temperature policy
annotates `improving`, an equal pair is `stable`, and a key with no policy
(`daylight`) stays untouched. -/
theorem trend_annotation_witness :
    trendUpdate defaultMeasurePolicies trendWitnessPrev "temperature_f" trendWitnessJ =
      { trendWitnessJ with
          trend := some (trendDirection 5 9 trendWitnessPol)
          trend_delta := some (5 - 9)
          trend_confidence := some 1 } ∧
    trendDirection 5 9 trendWitnessPol =
      (if (5 : ℚ) - 9 < 0 then Trend.improving else Trend.worsening) ∧
    trendDirection 5 5 trendWitnessPol = Trend.stable ∧
    trendUpdate defaultMeasurePolicies trendWitnessPrev "daylight" trendWitnessJ =
      trendWitnessJ :=
  ⟨(((trend_annotation_follows_policy.2.2.2.1 defaultMeasurePolicies trendWitnessPrev
        "temperature_f" trendWitnessJ trendWitnessPol rfl).2 _ rfl).2 5 9 rfl rfl),
    ((trend_annotation_follows_policy.2.2.2.2 5 9 trendWitnessPol).2
        (by norm_num [trendWitnessPol])).2.2 rfl,
    (trend_annotation_follows_policy.2.2.2.2 5 5 trendWitnessPol).1
      (by norm_num [trendWitnessPol]),
    trend_annotation_follows_policy.2.2.1 defaultMeasurePolicies trendWitnessPrev
      "daylight" trendWitnessJ rfl⟩

/-- The judgment every judge returns for a null reading (status `unknown`,
no distance, no severity, no reasons, no risk emitted). -/
def unknownJudgment : MeasureJudgment :=
  { status := Status.unknown, reasons := [] }

/-- All-default preferences (every field `None`). -/
def defaultPrefs : RiderPreferences := {}

/-- Counterexample to C7 as stated: for a rider who does not prefer daylight
(the all-default preferences), the daylight judge maps a null reading to
`ideal`, not `unknown`. -/
theorem null_reading_unknown_counterexample :
    (judgeDaylight none defaultPrefs).1.status = Status.ideal ∧
      (judgeDaylight none defaultPrefs).1.status ≠ Status.unknown := by
  constructor <;> decide

/-- C7 (amended).  A null raw reading yields a judgment with no risk flag
emitted, no `distance_from_preference`, and status `unknown` — for every
judge except daylight, which yields status `unknown` only when the rider
prefers daylight and otherwise yields `ideal` (still with no risk and no
distance). -/
theorem null_reading_judgments :
    ∀ p : RiderPreferences,
      judgeTemperature none p = (unknownJudgment, []) ∧
      judgeWind none p = (unknownJudgment, []) ∧
      judgeGusts none p = (unknownJudgment, []) ∧
      judgeAqi none p = (unknownJudgment, []) ∧
      judgePrecip none p = (unknownJudgment, []) ∧
      judgeDaylight none p =
        ((if p.prefer_daylight = some true then unknownJudgment
          else { status := Status.ideal, reasons := [] }), []) := by
  intro p
  refine ⟨rfl, rfl, rfl, rfl, rfl, ?_⟩
  by_cases h : p.prefer_daylight = some true <;> simp [judgeDaylight, h, unknownJudgment]

/-- Preferences fixture with a 25 mph wind limit. -/
def windPrefs25 : RiderPreferences :=
  { max_wind_mph := some 25 }

/-- Counterexample to C8 as stated: at wind 31 mph with limit 25 the judge is
in the avoid branch and returns `distance_from_preference = 31 − 25 = 6`,
which is not `limit − value = −6` and not negative. -/
theorem wind_distance_counterexample :
    (judgeWind (some 31) windPrefs25).1.status = Status.avoid ∧
      (judgeWind (some 31) windPrefs25).1.distance_from_preference = some 6 ∧
      ¬((6 : ℚ) = windLimit windPrefs25 - 31) ∧ ¬((6 : ℚ) < 0) := by
  unfold judgeWind windLimit windPrefs25
  norm_num

/-- C8 (amended).  The wind-speed judge returns
`distance_from_preference = limit − value` (non-negative) at or below the
limit, but `value − limit` (positive overshoot) in the caution and avoid
branches above the limit; the returned distance is never negative. -/
theorem wind_distance_formula :
    ∀ (p : RiderPreferences) (w : ℚ),
      (w ≤ windLimit p →
        (judgeWind (some w) p).1.distance_from_preference = some (windLimit p - w)) ∧
      (windLimit p < w →
        (judgeWind (some w) p).1.distance_from_preference = some (w - windLimit p)) ∧
      (∀ d : ℚ, (judgeWind (some w) p).1.distance_from_preference = some d → 0 ≤ d) := by
  intro p w
  refine ⟨fun hle => ?_, fun hlt => ?_, fun d hd => ?_⟩
  · simp only [judgeWind]
    split_ifs <;> first | rfl | linarith
  · simp only [judgeWind]
    split_ifs <;> first | rfl | linarith
  · simp only [judgeWind] at hd
    split_ifs at hd <;> simp only [Option.some.injEq] at hd <;> linarith

/-- Badness order of statuses from the claim:
`ideal < acceptable < caution < avoid` (`unknown` never arises for the
non-null readings the monotonicity claim quantifies over). -/
def badness : Status → ℕ
  | Status.ideal => 0
  | Status.acceptable => 1
  | Status.caution => 2
  | Status.avoid => 3
  | Status.unknown => 0

/-- Deviation of a temperature reading from the preferred band
(positive outside the band, non-positive inside). -/
def tempDeviation (lower upper t : ℚ) : ℚ :=
  max (lower - t) (t - upper)

/-- Preferences fixture with the preferred temperature band `[40, 90]`. -/
def tempPrefs4090 : RiderPreferences :=
  { preferred_temp_range_f := some (40, 90) }

/-- Counterexample to C9 as stated: with band `[40, 90]`, the reading 31 °F
(deviation 9) is judged `avoid` through the absolute 32 °F cold cutoff while
the reading 100 °F (larger deviation 10) is judged only `caution`, so the
larger deviation receives a strictly better status. -/
theorem status_monotonicity_counterexample :
    tempDeviation 40 90 31 = 9 ∧
      tempDeviation 40 90 100 = 10 ∧
      tempDeviation 40 90 31 ≤ tempDeviation 40 90 100 ∧
      (judgeTemperature (some 31) tempPrefs4090).1.status = Status.avoid ∧
      (judgeTemperature (some 100) tempPrefs4090).1.status = Status.caution ∧
      badness Status.caution < badness Status.avoid := by
  refine ⟨?_, ?_, ?_, ?_, ?_, ?_⟩ <;>
    simp only [judgeTemperature, tempPrefs4090, tempDeviation, badness] <;> norm_num

/-- C9 (amended).  Judgment status badness is monotone in the deviation from
the preference for wind speed, wind gusts, AQI (deviation `value − limit`)
and precipitation probability (deviation = the raw probability), and for
temperature separately on the cold side and on the hot side of the preferred
band; across the two sides of the band the absolute 32 °F cold cutoff breaks
monotonicity (see the counterexample). -/
theorem status_monotone_in_deviation :
    (∀ (p : RiderPreferences) (v w : ℚ), v - windLimit p ≤ w - windLimit p →
      badness (judgeWind (some v) p).1.status ≤ badness (judgeWind (some w) p).1.status) ∧
    (∀ (p : RiderPreferences) (v w : ℚ), v - windLimit p ≤ w - windLimit p →
      badness (judgeGusts (some v) p).1.status ≤ badness (judgeGusts (some w) p).1.status) ∧
    (∀ (p : RiderPreferences) (v w : ℚ), v - aqiLimit p ≤ w - aqiLimit p →
      badness (judgeAqi (some v) p).1.status ≤ badness (judgeAqi (some w) p).1.status) ∧
    (∀ (p : RiderPreferences) (v w : ℚ), v ≤ w →
      badness (judgePrecip (some v) p).1.status ≤ badness (judgePrecip (some w) p).1.status) ∧
    (∀ (p : RiderPreferences) (lower upper v w : ℚ),
      p.preferred_temp_range_f = some (lower, upper) →
      v < lower → w < lower → lower - v ≤ lower - w →
      badness (judgeTemperature (some v) p).1.status ≤
        badness (judgeTemperature (some w) p).1.status) ∧
    (∀ (p : RiderPreferences) (lower upper v w : ℚ),
      p.preferred_temp_range_f = some (lower, upper) → lower ≤ upper →
      upper < v → upper < w → v - upper ≤ w - upper →
      badness (judgeTemperature (some v) p).1.status ≤
        badness (judgeTemperature (some w) p).1.status) := by
  refine ⟨?_, ?_, ?_, ?_, ?_, ?_⟩
  · intro p v w hvw
    have hv : v ≤ w := by linarith
    simp only [judgeWind]
    split_ifs <;> simp [badness] <;> linarith
  · intro p v w hvw
    have hv : v ≤ w := by linarith
    simp only [judgeGusts]
    split_ifs <;> simp [badness] <;> linarith
  · intro p v w hvw
    have hv : v ≤ w := by linarith
    by_cases hap : p.avoid_poor_aqi ≠ some false
    · simp only [judgeAqi, hap, ne_eq, not_false_eq_true, not_true, true_and,
        false_and, if_false, if_true]
      split_ifs <;> simp [badness] <;> linarith
    · simp only [judgeAqi, hap, ne_eq, not_false_eq_true, not_true, not_not,
        true_and, false_and, if_false, if_true]
      split_ifs <;> simp [badness] <;> linarith
  · intro p v w hv
    by_cases hap : p.avoid_precip ≠ some false
    · simp only [judgePrecip, hap, ne_eq, not_false_eq_true, not_true, true_and,
        false_and, if_false, if_true]
      split_ifs <;> simp [badness] <;> linarith
    · simp only [judgePrecip, hap, ne_eq, not_false_eq_true, not_true, not_not,
        true_and, false_and, if_false, if_true]
      split_ifs <;> simp [badness] <;> linarith
  · intro p lower upper v w hp hv hw hvw
    have hv2 : w ≤ v := by linarith
    simp only [judgeTemperature, hp]
    rw [if_pos hv, if_pos hw]
    split_ifs <;> simp [badness] <;> linarith
  · intro p lower upper v w hp hband hv hw hvw
    have hv2 : v ≤ w := by linarith
    have hnl1 : ¬ v < lower := by linarith
    have hnl2 : ¬ w < lower := by linarith
    simp only [judgeTemperature, hp]
    rw [if_neg hnl1, if_pos hv, if_neg hnl2, if_pos hw]
    split_ifs <;> simp [badness] <;> linarith

/-- Witness: the monotonicity theorem applied at concrete readings for every
measure (wind 5 vs 10 mph, gusts 5 vs 10 mph, AQI 30 vs 60, precipitation
10 % vs 30 %, temperature 38 °F vs 35 °F below and 92 °F vs 95 °F above the
band `[40, 90]`). -/
theorem status_monotone_witness :
    badness (judgeWind (some 5) defaultPrefs).1.status ≤
        badness (judgeWind (some 10) defaultPrefs).1.status ∧
      badness (judgeGusts (some 5) defaultPrefs).1.status ≤
        badness (judgeGusts (some 10) defaultPrefs).1.status ∧
      badness (judgeAqi (some 30) defaultPrefs).1.status ≤
        badness (judgeAqi (some 60) defaultPrefs).1.status ∧
      badness (judgePrecip (some 10) defaultPrefs).1.status ≤
        badness (judgePrecip (some 30) defaultPrefs).1.status ∧
      badness (judgeTemperature (some 38) tempPrefs4090).1.status ≤
        badness (judgeTemperature (some 35) tempPrefs4090).1.status ∧
      badness (judgeTemperature (some 92) tempPrefs4090).1.status ≤
        badness (judgeTemperature (some 95) tempPrefs4090).1.status :=
  ⟨status_monotone_in_deviation.1 defaultPrefs 5 10 (by norm_num),
    status_monotone_in_deviation.2.1 defaultPrefs 5 10 (by norm_num),
    status_monotone_in_deviation.2.2.1 defaultPrefs 30 60 (by norm_num),
    status_monotone_in_deviation.2.2.2.1 defaultPrefs 10 30 (by norm_num),
    status_monotone_in_deviation.2.2.2.2.1 tempPrefs4090 40 90 38 35 rfl
      (by norm_num) (by norm_num) (by norm_num),
    status_monotone_in_deviation.2.2.2.2.2 tempPrefs4090 40 90 92 95 rfl
      (by norm_num) (by norm_num) (by norm_num) (by norm_num)⟩

/-- The fixed measure-key list `assess_hour` builds, in insertion order. -/
def measureKeys : List String :=
  ["temperature_f", "wind_speed_mph", "wind_gusts_mph", "us_aqi",
   "precipitation_prob_percent", "daylight"]

/-- C10.  Every successful single-hour assessment carries exactly the six
fixed judgment keys, in order, whatever readings are missing; consequently on
assessments with this key set the key-normalization step of
`assess_timeline` inserts nothing and is the identity. -/
theorem fixed_judgment_key_set :
    (∀ (p : RiderPreferences) (snap : Snapshot) (t : ℤ), snap.time = some t →
      ∃ a, assessHour p snap = Except.ok a ∧ a.judgments.map Prod.fst = measureKeys) ∧
    (∀ (cur : Option HourAssessment) (hourly : List HourAssessment),
      (∀ c, cur = some c → c.judgments.map Prod.fst = measureKeys) →
      (∀ a ∈ hourly, a.judgments.map Prod.fst = measureKeys) →
      normalizeKeys cur hourly = hourly) := by
  constructor
  · intro p snap t ht
    unfold assessHour
    rw [ht]
    exact ⟨_, rfl, rfl⟩
  · intro cur hourly hcur hall
    unfold normalizeKeys
    split
    · rfl
    · rename_i hcond
      have hmap : ∀ keySource : List String,
          (∀ a ∈ hourly, a.judgments.map Prod.fst = keySource) →
          (hourly.map fun a =>
            { a with
                judgments :=
                  a.judgments ++
                    ((keySource.filter fun k =>
                        !((a.judgments.map Prod.fst).contains k)).map fun k =>
                      (k, ({ status := Status.unknown, reasons := [] } : MeasureJudgment))) }) =
            hourly := by
        intro keySource hks
        conv_rhs => rw [← List.map_id hourly]
        apply List.map_congr_left
        intro a ha
        have hfil : (keySource.filter fun k =>
            !((a.judgments.map Prod.fst).contains k)) = [] := by
          rw [List.filter_eq_nil_iff]
          intro k hk
          rw [hks a ha]
          simp [hk]
        rw [hfil]
        simp
      cases cur with
      | some c =>
        exact hmap (c.judgments.map Prod.fst)
          (fun a ha => (hall a ha).trans (hcur c rfl).symm)
      | none =>
        cases hourly with
        | nil => simp at hcond
        | cons a rest =>
          exact hmap (a.judgments.map Prod.fst)
            (fun b hb => (hall b hb).trans (hall a (by simp)).symm)

/-- Snapshot fixture with a valid timestamp and no readings. -/
def keyWitnessSnapshot : Snapshot := { time := some 0 }

/-- Assessment fixture already carrying the six canonical keys. -/
def keyWitnessAssessment : HourAssessment :=
  { time := 0, decision := Decision.unknown,
    judgments := measureKeys.map fun k => (k, unknownJudgment) }

/-- Witness: the fixed-key-set theorem applied to a concrete snapshot with a
valid timestamp and to a concrete one-hour timeline. -/
theorem fixed_judgment_key_set_witness :
    (∃ a, assessHour defaultPrefs keyWitnessSnapshot = Except.ok a ∧
        a.judgments.map Prod.fst = measureKeys) ∧
      normalizeKeys none [keyWitnessAssessment] = [keyWitnessAssessment] :=
  ⟨fixed_judgment_key_set.1 defaultPrefs keyWitnessSnapshot 0 rfl,
    fixed_judgment_key_set.2 none [keyWitnessAssessment]
      (fun c h => by cases h)
      (fun a ha => by
        rw [List.mem_singleton] at ha
        subst ha
        rfl)⟩

/-- A provided (non-null) snapshot of the timeline input whose timestamp is
absent or not a valid datetime. -/
def hasBadTime (c : BikeConditions) : Bool :=
  (match c.current with
    | some s => s.time.isNone
    | none => false) ||
    ((c.forecast.filterMap id).any fun s => s.time.isNone)

/-- Status of one measure judgment of a successful single-hour assessment. -/
noncomputable def hourJudgmentStatus (p : RiderPreferences) (snap : Snapshot)
    (key : String) : Option Status :=
  match assessHour p snap with
  | Except.ok a => (a.judgments.lookup key).map fun j => j.status
  | Except.error _ => none

theorem exceptBind_error {α β : Type} (e : String) (f : α → Except String β) :
    ((Except.error e : Except String α) >>= f) = Except.error e := rfl

theorem exceptBind_ok {α β : Type} (a : α) (f : α → Except String β) :
    ((Except.ok a : Except String α) >>= f) = f a := rfl

theorem exceptIsOk_error {α : Type} (e : String) :
    (Except.error e : Except String α).isOk = false := rfl

theorem exceptIsOk_ok {α : Type} (a : α) :
    (Except.ok a : Except String α).isOk = true := rfl

theorem exceptIsOk_pure {α : Type} (a : α) :
    (pure a : Except String α).isOk = true := rfl

theorem exceptMap_error {α β : Type} (g : α → β) (e : String) :
    Except.map g (Except.error e : Except String α) = Except.error e := rfl

theorem exceptMap_ok {α β : Type} (g : α → β) (a : α) :
    Except.map g (Except.ok a : Except String α) = Except.ok (g a) := rfl

theorem assessHour_isOk (p : RiderPreferences) (snap : Snapshot) :
    (assessHour p snap).isOk = !snap.time.isNone := by
  cases ht : snap.time with
  | none =>
    have he : assessHour p snap = Except.error "hour_snapshot.time must be a datetime" := by
      unfold assessHour
      rw [ht]
    rw [he, exceptIsOk_error]
    rfl
  | some t =>
    have hok : ∃ a, assessHour p snap = Except.ok a := by
      unfold assessHour
      rw [ht]
      exact ⟨_, rfl⟩
    obtain ⟨a, ha⟩ := hok
    rw [ha, exceptIsOk_ok]
    rfl

theorem assessHours_isOk (p : RiderPreferences) :
    ∀ l : List Snapshot,
      (assessHours p l).isOk = l.all fun s => !s.time.isNone := by
  intro l
  induction l with
  | nil => rfl
  | cons s rest ih =>
    unfold assessHours
    cases ht : s.time with
    | none =>
      have he : assessHour p s = Except.error "hour_snapshot.time must be a datetime" := by
        unfold assessHour
        rw [ht]
      rw [he, exceptBind_error, exceptIsOk_error]
      simp [ht]
    | some t =>
      have hok : ∃ a, assessHour p s = Except.ok a := by
        unfold assessHour
        rw [ht]
        exact ⟨_, rfl⟩
      obtain ⟨a, ha⟩ := hok
      rw [ha, exceptBind_ok]
      cases hrest : assessHours p rest with
      | error e =>
        rw [exceptBind_error, exceptIsOk_error]
        rw [hrest, exceptIsOk_error] at ih
        simp only [List.all_cons, ht, Option.isNone_some, Bool.not_false, Bool.true_and]
        exact ih
      | ok others =>
        rw [exceptBind_ok, exceptIsOk_pure]
        rw [hrest, exceptIsOk_ok] at ih
        simp only [List.all_cons, ht, Option.isNone_some, Bool.not_false, Bool.true_and]
        exact ih

theorem all_insertionSort {α : Type} (r : α → α → Prop) [DecidableRel r]
    (l : List α) (f : α → Bool) :
    (List.insertionSort r l).all f = l.all f := by
  have hperm := List.perm_insertionSort r l
  cases h : l.all f with
  | true =>
    rw [List.all_eq_true] at h ⊢
    exact fun x hx => h x (hperm.mem_iff.mp hx)
  | false =>
    rw [List.all_eq_false] at h ⊢
    obtain ⟨x, hx, hfx⟩ := h
    exact ⟨x, hperm.mem_iff.mpr hx, hfx⟩

theorem allNot_eq_notAny {α : Type} (l : List α) (f : α → Bool) :
    (l.all fun x => !f x) = !l.any f := by
  induction l with
  | nil => rfl
  | cons a l ih => simp [List.all_cons, List.any_cons, ih, Bool.not_or]

/-- C6 (amended).  The timeline assessment fails exactly when some provided
(non-null) snapshot — the current one or a forecast entry — has an absent or
invalid timestamp; with all timestamps valid it never fails, and a missing
reading yields an `unknown` judgment for its measure, except the daylight
measure, which yields `ideal` whenever the rider does not prefer daylight. -/
theorem timeline_error_iff_bad_timestamp :
    (∀ (p : RiderPreferences) (conds : BikeConditions)
        (pols : Option (List (String × MeasurePolicy))),
      (assessTimeline p conds pols).isOk = !hasBadTime conds) ∧
    (∀ (p : RiderPreferences) (snap : Snapshot) (t : ℤ), snap.time = some t →
      (snap.temperature = none →
        hourJudgmentStatus p snap "temperature_f" = some Status.unknown) ∧
      (snap.wind_speed = none →
        hourJudgmentStatus p snap "wind_speed_mph" = some Status.unknown) ∧
      (snap.wind_gusts = none →
        hourJudgmentStatus p snap "wind_gusts_mph" = some Status.unknown) ∧
      (snap.us_aqi = none →
        hourJudgmentStatus p snap "us_aqi" = some Status.unknown) ∧
      (snap.precipitation_prob = none →
        hourJudgmentStatus p snap "precipitation_prob_percent" = some Status.unknown) ∧
      (snap.is_day = none →
        hourJudgmentStatus p snap "daylight" =
          some (if p.prefer_daylight = some true then Status.unknown
            else Status.ideal))) := by
  constructor
  · intro p conds pols
    have hforecast :
        ((List.insertionSort snapshotLe (conds.forecast.filterMap id)).all
            fun s => !s.time.isNone) =
          !((conds.forecast.filterMap id).any fun s => s.time.isNone) := by
      rw [all_insertionSort, allNot_eq_notAny]
    unfold assessTimeline hasBadTime
    cases hc : conds.current with
    | none =>
      dsimp only
      cases hr : assessHours p
          (List.insertionSort snapshotLe (conds.forecast.filterMap id)) with
      | error e =>
        have h2 := assessHours_isOk p
          (List.insertionSort snapshotLe (conds.forecast.filterMap id))
        rw [hr, exceptIsOk_error] at h2
        rw [exceptIsOk_error, Bool.false_or, ← hforecast]
        exact h2
      | ok hourly =>
        have h2 := assessHours_isOk p
          (List.insertionSort snapshotLe (conds.forecast.filterMap id))
        rw [hr, exceptIsOk_ok] at h2
        rw [exceptIsOk_ok, Bool.false_or, ← hforecast]
        exact h2
    | some snap =>
      cases ht : snap.time with
      | none =>
        have he : assessHour p snap =
            Except.error "hour_snapshot.time must be a datetime" := by
          unfold assessHour
          rw [ht]
        dsimp only
        rw [he, exceptMap_error]
        rw [exceptIsOk_error, ht]
        rfl
      | some t =>
        have hok : ∃ a, assessHour p snap = Except.ok a := by
          unfold assessHour
          rw [ht]
          exact ⟨_, rfl⟩
        obtain ⟨a, ha⟩ := hok
        dsimp only
        rw [ha, exceptMap_ok]
        rw [ht]
        cases hr : assessHours p
            (List.insertionSort snapshotLe (conds.forecast.filterMap id)) with
        | error e =>
          have h2 := assessHours_isOk p
            (List.insertionSort snapshotLe (conds.forecast.filterMap id))
          rw [hr, exceptIsOk_error] at h2
          rw [exceptIsOk_error]
          simp only [Option.isNone_some, Bool.false_or, ← hforecast]
          exact h2
        | ok hourly =>
          have h2 := assessHours_isOk p
            (List.insertionSort snapshotLe (conds.forecast.filterMap id))
          rw [hr, exceptIsOk_ok] at h2
          rw [exceptIsOk_ok]
          simp only [Option.isNone_some, Bool.false_or, ← hforecast]
          exact h2
  · intro p snap t ht
    refine ⟨fun h1 => ?_, fun h1 => ?_, fun h1 => ?_, fun h1 => ?_, fun h1 => ?_,
      fun h1 => ?_⟩ <;>
      simp only [hourJudgmentStatus, assessHour, ht, h1] <;>
      simp [List.lookup, judgeTemperature, judgeWind, judgeGusts, judgeAqi,
        judgePrecip, judgeDaylight]
    by_cases hd : p.prefer_daylight = some true <;> simp [hd]

/-- Timeline fixture: no current snapshot, a single forecast hour with a
valid timestamp and no readings at all. -/
def noReadingsConditions : BikeConditions :=
  { current := none, forecast := [some keyWitnessSnapshot] }

/-- Witness: the timestamp-validation theorem applied at a concrete timeline
and at a concrete snapshot with a valid timestamp and a missing temperature
reading. -/
theorem timeline_error_witness :
    (assessTimeline defaultPrefs noReadingsConditions none).isOk =
        !hasBadTime noReadingsConditions ∧
      hourJudgmentStatus defaultPrefs keyWitnessSnapshot "temperature_f" =
        some Status.unknown :=
  ⟨timeline_error_iff_bad_timestamp.1 defaultPrefs noReadingsConditions none,
    (timeline_error_iff_bad_timestamp.2 defaultPrefs keyWitnessSnapshot 0 rfl).1 rfl⟩

/-- Counterexample to C6 as stated: a timeline whose every snapshot has a
valid timestamp does not raise, but the missing `is_day` reading of a rider
who does not prefer daylight yields an `ideal` daylight judgment, not
`unknown`. -/
theorem timeline_unknown_counterexample :
    (assessTimeline defaultPrefs noReadingsConditions none).isOk = true ∧
      hourJudgmentStatus defaultPrefs keyWitnessSnapshot "daylight" =
        some Status.ideal ∧
      Status.ideal ≠ Status.unknown := by
  refine ⟨rfl, ?_, by decide⟩
  simp only [hourJudgmentStatus, assessHour, keyWitnessSnapshot]
  simp [List.lookup, judgeDaylight, defaultPrefs]

/-- One adjacent pair of window hours is within 90 seconds of one hour. -/
def hourGapOk (a b : HourAssessment) : Prop :=
  (b.time - a.time - 3600).natAbs ≤ 90

theorem consecutive_iff_chain :
    ∀ hs : List HourAssessment, consecutive hs = true ↔ List.Chain' hourGapOk hs
  | [] => by simp [consecutive]
  | [a] => by simp [consecutive]
  | a :: b :: t => by
    have ih := consecutive_iff_chain (b :: t)
    simp only [consecutive, List.tail_cons, List.zip_cons_cons, List.all_cons,
      Bool.and_eq_true, decide_eq_true_eq, List.chain'_cons] at ih ⊢
    rw [ih]
    exact and_congr_left fun _ => Iff.rfl

/-- Everything `compute_window_recommendations` guarantees about one returned
recommendation: it was built from a duration candidate and a slice of the
time-sorted input that passed the length, contiguity, and no-avoid guards. -/
theorem mem_computeWindowRecommendations
    {hourly : List HourAssessment} {ds : List ℕ} {r : WindowRecommendation}
    (hr : r ∈ computeWindowRecommendations hourly ds) :
    ∃ (i : ℕ) (first : HourAssessment) (rest : List HourAssessment) (dur : ℕ),
      dur ∈ ds ∧
      ((List.insertionSort hourTimeLe hourly).drop i).take ((dur + 59) / 60) =
        first :: rest ∧
      consecutive (first :: rest) = true ∧
      ((first :: rest).any fun h => decide (h.decision = Decision.avoid)) = false ∧
      r = { start := first.time
            stop := ((first :: rest).getLast (List.cons_ne_nil first rest)).time
            duration_minutes := dur
            decision := aggregateDecision (first :: rest)
            window_score := some
              ((((first :: rest).map fun h => h.hour_score.getD 0).sum) /
                (((dur + 59) / 60 : ℕ) : ℝ))
            reasons := ["Average score over the window hours"]
            risks := (first :: rest).flatMap fun h => h.risks } := by
  unfold computeWindowRecommendations at hr
  split at hr
  · simp at hr
  · rw [(List.perm_insertionSort windowRecLe _).mem_iff, List.mem_flatMap] at hr
    obtain ⟨i, hi, hr⟩ := hr
    rw [List.mem_filterMap] at hr
    obtain ⟨dur, hdur, hbuild⟩ := hr
    refine ⟨i, ?_⟩
    dsimp only at hbuild
    split_ifs at hbuild with hlen hcons havoid
    revert hbuild
    cases hslice : List.take ((dur + 59) / 60)
        (List.drop i (List.insertionSort hourTimeLe hourly)) with
    | nil => intro hbuild; cases hbuild
    | cons first rest =>
      intro hbuild
      rw [hslice] at hcons havoid
      refine ⟨first, rest, dur, hdur, hslice, ?_, ?_,
        (Option.some.inj hbuild).symm⟩
      · simpa using hcons
      · simpa using havoid

/-- What the claim requires of one returned window, tied to the input: the
included hours are an actual contiguous slice (a `take` of a `drop`) of the
time-sorted input list, none of them `avoid`, each adjacent pair within 90
seconds of one hour, and the recommendation span, decision, collected
risks, and score are computed from exactly that slice. -/
def windowSafe (hourly : List HourAssessment) (durations_minutes : List ℕ)
    (r : WindowRecommendation) : Prop :=
  ∃ (i : ℕ) (first : HourAssessment) (rest : List HourAssessment),
    r.duration_minutes ∈ durations_minutes ∧
    List.take ((r.duration_minutes + 59) / 60)
      (List.drop i (List.insertionSort hourTimeLe hourly)) = first :: rest ∧
    (∀ h ∈ first :: rest, h.decision ≠ Decision.avoid) ∧
    List.Chain' hourGapOk (first :: rest) ∧
    r.start = first.time ∧
    r.stop = ((first :: rest).getLast (List.cons_ne_nil first rest)).time ∧
    r.decision = aggregateDecision (first :: rest) ∧
    r.risks = ((first :: rest).flatMap fun h => h.risks) ∧
    r.window_score =
      some ((((first :: rest).map fun h => h.hour_score.getD 0).sum) /
        (((r.duration_minutes + 59) / 60 : ℕ) : ℝ))

/-- C3.  Every recommendation returned by the window recommender is built
from a contiguous slice of the time-sorted input hours whose decisions are
all non-`avoid` and whose consecutive timestamps each differ from 3600
seconds by at most 90 seconds, and the recommendation spans, aggregates and
scores exactly that slice; a candidate window violating either condition is
filtered out and never returned. -/
theorem window_recommendations_safe :
    ∀ (hourly : List HourAssessment) (durations_minutes : List ℕ),
      (computeWindowRecommendations hourly durations_minutes).Forall
        (windowSafe hourly durations_minutes) := by
  intro hourly ds
  rw [List.forall_iff_forall_mem]
  intro r hr
  obtain ⟨i, first, rest, dur, hdur, hslice, hcons, havoid, hreq⟩ :=
    mem_computeWindowRecommendations hr
  subst hreq
  refine ⟨i, first, rest, hdur, hslice, ?_, (consecutive_iff_chain _).mp hcons,
    rfl, rfl, rfl, rfl, rfl⟩
  intro h hmem
  have hfalse := List.any_eq_false.mp havoid h hmem
  simpa using hfalse

instance : IsTotal WindowRecommendation windowRecLe :=
  ⟨by
    intro a b
    unfold windowRecLe
    rcases lt_trichotomy (windowSortKey a) (windowSortKey b) with h | h | h
    · exact Or.inl (Or.inl h)
    · rcases le_total a.start b.start with hs | hs
      · exact Or.inl (Or.inr ⟨h, hs⟩)
      · exact Or.inr (Or.inr ⟨h.symm, hs⟩)
    · exact Or.inr (Or.inl h)⟩

instance : IsTrans WindowRecommendation windowRecLe :=
  ⟨by
    intro a b c hab hbc
    unfold windowRecLe at *
    rcases hab with h1 | ⟨h1, hs1⟩ <;> rcases hbc with h2 | ⟨h2, hs2⟩
    · exact Or.inl (h1.trans h2)
    · exact Or.inl (lt_of_lt_of_eq h1 h2)
    · exact Or.inl (lt_of_eq_of_lt h1 h2)
    · exact Or.inr ⟨h1.trans h2, hs1.trans hs2⟩⟩

/-- Descending-score order with ties broken by earliest start, on
recommendations that carry a score. -/
def scoreDescThenStart (a b : WindowRecommendation) : Prop :=
  ∃ x y : ℝ, a.window_score = some x ∧ b.window_score = some y ∧
    (y < x ∨ (x = y ∧ a.start ≤ b.start))

/-- C4.  The returned recommendation list is sorted by the ranking key
(negated score — `-1` for a missing score — then start); every returned
recommendation carries a defined `window_score`, so the missing-score clause
of the claim is vacuous on the output; and consequently the list is pairwise
descending by score with ties ordered by earliest start. -/
theorem window_recommendations_sorted :
    ∀ (hourly : List HourAssessment) (durations_minutes : List ℕ),
      List.Sorted windowRecLe (computeWindowRecommendations hourly durations_minutes) ∧
      (computeWindowRecommendations hourly durations_minutes).Forall
        (fun r => r.window_score.isSome = true) ∧
      List.Pairwise scoreDescThenStart
        (computeWindowRecommendations hourly durations_minutes) := by
  intro hourly ds
  have hsorted : List.Sorted windowRecLe (computeWindowRecommendations hourly ds) := by
    unfold computeWindowRecommendations
    split
    · exact List.sorted_nil
    · exact List.sorted_insertionSort windowRecLe _
  have hsome : ∀ r ∈ computeWindowRecommendations hourly ds,
      r.window_score.isSome = true := by
    intro r hr
    obtain ⟨i, first, rest, dur, hdur, hslice, hcons, havoid, hreq⟩ :=
      mem_computeWindowRecommendations hr
    rw [hreq]
    rfl
  refine ⟨hsorted, List.forall_iff_forall_mem.mpr hsome, ?_⟩
  have hpair := List.Pairwise.and_mem.mp hsorted
  refine hpair.imp ?_
  intro a b hab
  obtain ⟨hma, hmb, hle⟩ := hab
  obtain ⟨x, hx⟩ := Option.isSome_iff_exists.mp (hsome a hma)
  obtain ⟨y, hy⟩ := Option.isSome_iff_exists.mp (hsome b hmb)
  refine ⟨x, y, hx, hy, ?_⟩
  have hka : windowSortKey a = -x := by rw [windowSortKey, hx]
  have hkb : windowSortKey b = -y := by rw [windowSortKey, hy]
  rcases hle with h | ⟨h, hs⟩
  · rw [hka, hkb, neg_lt_neg_iff] at h
    exact Or.inl h
  · rw [hka, hkb, neg_inj] at h
    exact Or.inr ⟨h, hs⟩

/-- Witness: the wind-distance theorem applied at wind 10 mph (below the
25 mph limit) and at wind 31 mph (above it). -/
theorem wind_distance_witness :
    (judgeWind (some 10) windPrefs25).1.distance_from_preference =
        some (windLimit windPrefs25 - 10) ∧
      (judgeWind (some 31) windPrefs25).1.distance_from_preference =
        some ((31 : ℚ) - windLimit windPrefs25) ∧
      (0 : ℚ) ≤ 6 :=
  ⟨(wind_distance_formula windPrefs25 10).1 (by norm_num [windLimit, windPrefs25]),
    (wind_distance_formula windPrefs25 31).2.1 (by norm_num [windLimit, windPrefs25]),
    (wind_distance_formula windPrefs25 31).2.2 6
      (by
        unfold judgeWind windLimit windPrefs25
        norm_num)⟩

example :
    (judgeTemperature (some 25) { preferred_temp_range_f := some (65, 93) }).1.status =
        Status.avoid ∧
      (judgeTemperature (some 25) { preferred_temp_range_f := some (65, 93) }).2 =
        [{ code := RiskCode.extreme_cold, severity := RiskSeverity.major,
           evidence := ["Very cold"] }] := by
  unfold judgeTemperature
  norm_num

example :
    (judgeAqi (some 80) { max_aqi := some 80 }).1.status = Status.acceptable ∧
      (judgeAqi (some 80) { max_aqi := some 80 }).2 = [] := by
  unfold judgeAqi aqiLimit
  norm_num

example :
    computeWindowRecommendations
      [{ time := 0, decision := Decision.go }, { time := 7200, decision := Decision.go }]
      [120] = [] := by
  rfl

example :
    computeDecision [("daylight", { status := Status.ideal })] = Decision.go := by
  decide

example :
    computeDecision
      [("daylight", { status := Status.ideal }),
       ("us_aqi", { status := Status.avoid })] = Decision.avoid := by
  decide
